import Mathlib

/-!
# EnergyAnomalyDetector: client-side UI glue

A shallow embedding of the two page-initialisation scripts
`src/app/static/js/custom.js` and `src/static/js/main.js`.

The DOM is represented by the pieces the handlers read and write:
class lists (`classList`), a few attributes, the text of an element, and the
two keys of the local store.  A handler that dereferences a `null` element is
modelled as raising a `TypeError`.
-/

namespace EnergyAnomalyDetector

/-! ## Class lists (`DOMTokenList`) -/

/-- Membership test `classList.contains(c)`. -/
def hasClass (cl : List String) (c : String) : Bool := decide (c ∈ cl)

/-- The call `classList.add(c)`: the token is appended unless already present. -/
def classAdd (cl : List String) (c : String) : List String :=
  if c ∈ cl then cl else cl ++ [c]

/-- The call `classList.remove(c)`: every occurrence of the token is dropped. -/
def classRemove (cl : List String) (c : String) : List String :=
  cl.filter (fun x => decide (x ≠ c))

/-- The call `classList.toggle(c)`: removes the token when present, adds it otherwise. -/
def classToggle (cl : List String) (c : String) : List String :=
  if c ∈ cl then classRemove cl c else classAdd cl c

/-! ## JavaScript errors -/

/-- Exceptions raised by the modelled code: reading a property of `null` or
`undefined` is a `TypeError`. -/
inductive JsError where
  | typeError (msg : String)
  deriving DecidableEq, Repr

/-! ## custom.js: active-link highlighter (lines 78-86) -/

/-- A `.nav-link` element: the value of `getAttribute('href')` (`none` for
`null`) and its class list. -/
structure NavLink where
  href : Option String
  classes : List String
  deriving DecidableEq, Repr

/-- Body of the `navLinks.forEach` callback for one link. -/
def highlightLink (currentLocation : String) (link : NavLink) : NavLink :=
  if link.href = some currentLocation then
    { link with classes := classAdd link.classes "active" }
  else link

/-- The loop `navLinks.forEach(...)` over all `.nav-link` elements. -/
def highlightActive (currentLocation : String) (navLinks : List NavLink) : List NavLink :=
  navLinks.map (highlightLink currentLocation)

/-! ## custom.js: password visibility toggle (lines 28-41) -/

/-- Markup written into the button when the input is unmasked. -/
def eyeSlashIcon : String := "<i class=\"bi bi-eye-slash\"></i>"

/-- Markup written into the button when the input is masked again. -/
def eyeIcon : String := "<i class=\"bi bi-eye\"></i>"

/-- One `.toggle-password` button together with the element its `data-target`
selector resolves to: `inputType` is the `type` of that input, `none` when
`document.querySelector` returns `null`; `buttonHTML` is `button.innerHTML`. -/
structure PasswordToggle where
  inputType : Option String
  buttonHTML : String
  deriving DecidableEq, Repr

/-- The click listener of a `.toggle-password` button. -/
def togglePasswordClick (s : PasswordToggle) : Except JsError PasswordToggle :=
  match s.inputType with
  | none => Except.error (JsError.typeError "input is null")
  | some t =>
    if t = "password" then
      Except.ok { inputType := some "text", buttonHTML := eyeSlashIcon }
    else
      Except.ok { inputType := some "password", buttonHTML := eyeIcon }

/-- A run of `n` successive clicks on the same button; the first exception ends the run. -/
def togglePasswordClicks : Nat → PasswordToggle → Except JsError PasswordToggle
  | 0, s => Except.ok s
  | n + 1, s =>
    match togglePasswordClick s with
    | Except.ok s1 => togglePasswordClicks n s1
    | Except.error e => Except.error e

/-! ## Alert auto-dismiss (custom.js lines 19-26, main.js lines 12-21) -/

/-- An element of the document as the alert code sees it: `ident` is the node
identity, `classes` its class list, and `closed` records that the widget
library's `Alert.close()` has been called on it. -/
structure Element where
  ident : Nat
  classes : List String
  closed : Bool
  deriving DecidableEq, Repr

/-- Effect of `close()` on one element. -/
def closeAlert (e : Element) : Element := { e with closed := true }

/-- The selector `.alert:not(.alert-permanent)`. -/
def isDismissibleAlert (e : Element) : Bool :=
  hasClass e.classes "alert" && !hasClass e.classes "alert-permanent"

/-- The selector `.alert`. -/
def isAlert (e : Element) : Bool := hasClass e.classes "alert"

/-- The custom.js timer callback, run on the document as it is when the timer
fires: `querySelectorAll('.alert:not(.alert-permanent)')` and `close()` on each match. -/
def customAlertTimer (doc : List Element) : List Element :=
  doc.map (fun e => if isDismissibleAlert e then closeAlert e else e)

/-- The main.js load step: `flashMessages = querySelectorAll('.alert')`, captured
as node identities; the timer is scheduled (`some`) only when the list is non-empty. -/
def mainAlertLoad (doc : List Element) : Option (List Nat) :=
  let flashMessages := (doc.filter isAlert).map (fun e => e.ident)
  if flashMessages.length > 0 then some flashMessages else none

/-- The main.js timer callback: `close()` on every captured node. -/
def mainAlertTimer (flashMessages : List Nat) (doc : List Element) : List Element :=
  doc.map (fun e => if e.ident ∈ flashMessages then closeAlert e else e)

/-- Load followed by the timer firing on the same document, for main.js. -/
def mainAlertRun (doc : List Element) : List Element :=
  match mainAlertLoad doc with
  | some flashMessages => mainAlertTimer flashMessages doc
  | none => doc

/-! ## Events, confirmation guard and form validation -/

/-- Methods a listener calls on the event object. -/
inductive EventCall where
  | preventDefault
  | stopPropagation
  deriving DecidableEq, Repr

/-- What a `[data-confirm]` click listener did: the messages passed to
`window.confirm`, and the calls made on the event. -/
structure ConfirmOutcome where
  prompts : List String
  calls : List EventCall
  deriving DecidableEq, Repr

/-- The custom.js click listener (lines 91-95). `dataConfirm` is the value of
`this.getAttribute('data-confirm')` (`none` for `null`, which `confirm`
displays as the text null); `answer` is the user's reply to the prompt. -/
def customConfirmClick (dataConfirm : Option String) (answer : String → Bool) : ConfirmOutcome :=
  let message := match dataConfirm with
    | some m => m
    | none => "null"
  if !answer message then
    { prompts := [message], calls := [EventCall.preventDefault] }
  else
    { prompts := [message], calls := [] }

/-- The main.js click listener (lines 120-126). `dataConfirm` is
`button.dataset.confirm` (`none` for `undefined`); an empty or missing value
falls back to the default message. -/
def mainConfirmClick (dataConfirm : Option String) (answer : String → Bool) : ConfirmOutcome :=
  let message := match dataConfirm with
    | some m => if m = "" then "Are you sure you want to proceed?" else m
    | none => "Are you sure you want to proceed?"
  if !answer message then
    { prompts := [message], calls := [EventCall.preventDefault] }
  else
    { prompts := [message], calls := [] }

/-- What a `submit` listener did: the calls made on the event and the class
list of the form afterwards. -/
structure SubmitOutcome where
  calls : List EventCall
  classes : List String
  deriving DecidableEq, Repr

/-- The custom.js submit listener (lines 101-107). `valid` is the result of the
native `form.checkValidity()`. -/
def customFormSubmit (valid : Bool) (classes : List String) : SubmitOutcome :=
  let calls := if !valid then [EventCall.preventDefault, EventCall.stopPropagation] else []
  { calls := calls, classes := classAdd classes "was-validated" }

/-- The main.js submit listener (lines 107-114). -/
def mainFormSubmit (valid : Bool) (classes : List String) : SubmitOutcome :=
  let calls := if !valid then [EventCall.preventDefault, EventCall.stopPropagation] else []
  { calls := calls, classes := classAdd classes "was-validated" }

/-! ## File input labeler (custom.js lines 43-51, main.js lines 92-102) -/

/-- The element returned by `nextElementSibling`: its class list and its
content (`textContent` / `innerHTML`). -/
structure Sibling where
  classes : List String
  content : String
  deriving DecidableEq, Repr

/-- The main.js change listener. `files` lists the names of the selected files,
`sibling` is `input.nextElementSibling` (`none` for `null`). Returns the
sibling after the listener ran. -/
def mainFileChange (files : List String) (sibling : Option Sibling) : Option Sibling :=
  let fileName := match files.head? with
    | some name => if name = "" then "No file chosen" else name
    | none => "No file chosen"
  match sibling with
  | some label =>
    if hasClass label.classes "custom-file-label" then
      some { label with content := fileName }
    else some label
  | none => none

/-- The custom.js change listener: `files[0].name` is read without a check and
the sibling is written without a check. -/
def customFileChange (files : List String) (sibling : Option Sibling) :
    Except JsError (Option Sibling) :=
  match files.head? with
  | none => Except.error (JsError.typeError "e.target.files[0] is undefined")
  | some fileName =>
    match sibling with
    | none => Except.error (JsError.typeError "label is null")
    | some label => Except.ok (some { label with content := fileName })

/-! ## main.js: sidebar and theme persistence (lines 23-27 and 38-90) -/

/-- The two keys of `localStorage` the script uses; `none` is a missing key. -/
structure Store where
  sidebar_collapsed : Option String
  theme : Option String
  deriving DecidableEq, Repr

/-- The part of the page main.js reads and writes for the sidebar and the
theme: the class list of `document.body`, whether `#sidebar-toggle` and
`#theme-toggle` exist, the class list of `#sidebar` and of the first `<i>`
inside `#theme-toggle` (`none` when there is no such element), the store, and
whether `#theme-toggle` is a disabled form control (the method `click()`
dispatches no event on one). Body, sidebar and icon are distinct elements. -/
structure Page where
  body : List String
  sidebarToggle : Bool
  sidebar : Option (List String)
  themeToggle : Bool
  themeIcon : Option (List String)
  store : Store
  themeToggleDisabled : Bool := false
  deriving DecidableEq, Repr

/-- Result of running a listener or a load step: the page it left behind and
the exception it raised, if any. -/
structure Outcome where
  page : Page
  error : Option JsError
  deriving DecidableEq, Repr

/-- String conversion applied by `localStorage.setItem` to a boolean. -/
def jsBoolString (b : Bool) : String := if b then "true" else "false"

/-- The `#sidebar-toggle` click listener (lines 41-48). -/
def sidebarToggleClick (p : Page) : Outcome :=
  match p.sidebar with
  | none => { page := p, error := some (JsError.typeError "sidebar is null") }
  | some cl =>
    let cl1 := classToggle cl "collapsed"
    let isCollapsed := hasClass cl1 "collapsed"
    { page := { p with sidebar := some cl1,
                       store := { p.store with sidebar_collapsed := some (jsBoolString isCollapsed) } },
      error := none }

/-- The `#theme-toggle` click listener (lines 60-83). The body classes and the
store are written before the icon is looked up. -/
def themeToggleClick (p : Page) : Outcome :=
  if hasClass p.body "dark-theme" then
    let p1 : Page := { p with body := classAdd (classRemove p.body "dark-theme") "light-theme",
                              store := { p.store with theme := some "light" } }
    match p1.themeIcon with
    | none => { page := p1, error := some (JsError.typeError "icon is null") }
    | some ic =>
      { page := { p1 with themeIcon := some (classAdd (classRemove ic "fa-sun") "fa-moon") },
        error := none }
  else
    let p1 : Page := { p with body := classAdd (classRemove p.body "light-theme") "dark-theme",
                              store := { p.store with theme := some "dark" } }
    match p1.themeIcon with
    | none => { page := p1, error := some (JsError.typeError "icon is null") }
    | some ic =>
      { page := { p1 with themeIcon := some (classAdd (classRemove ic "fa-moon") "fa-sun") },
        error := none }

/-- The `.card` step of the load routine (lines 24-27) on one class list. -/
def fadeIn (cl : List String) : List String :=
  if hasClass cl "card" then classAdd cl "fade-in" else cl

/-- The `.card` step on the three tracked elements. -/
def fadeInCards (p : Page) : Page :=
  { p with body := fadeIn p.body,
           sidebar := p.sidebar.map fadeIn,
           themeIcon := p.themeIcon.map fadeIn }

/-- The stored-state check of the sidebar block (lines 39-40 and 50-54). -/
def mainSidebarRestore (p : Page) : Outcome :=
  if p.sidebarToggle then
    if p.store.sidebar_collapsed = some "true" then
      match p.sidebar with
      | none => { page := p, error := some (JsError.typeError "getElementById('sidebar') is null") }
      | some cl => { page := { p with sidebar := some (classAdd cl "collapsed") }, error := none }
    else { page := p, error := none }
  else { page := p, error := none }

/-- The stored-theme check of the theme block (lines 58-59 and 85-89):
`themeToggle.click()` runs the click listener synchronously, unless the toggle
is a disabled form control, in which case no click event is dispatched. -/
def mainThemeRestore (p : Page) : Outcome :=
  if p.themeToggle then
    if p.store.theme = some "light" then
      if p.themeToggleDisabled then { page := p, error := none }
      else themeToggleClick p
    else { page := p, error := none }
  else { page := p, error := none }

/-- The load routine of main.js restricted to the tracked state, in source
order: card fade-in, sidebar restore, theme restore. An exception raised by
the sidebar restore leaves the routine, so the theme block is not reached. -/
def mainLoad (p : Page) : Outcome :=
  let r := mainSidebarRestore (fadeInCards p)
  match r.error with
  | some _ => r
  | none => mainThemeRestore r.page

/-- The page after `n` successive clicks on `#sidebar-toggle`. -/
def sidebarClicks : Nat → Page → Page
  | 0, p => p
  | n + 1, p => sidebarClicks n (sidebarToggleClick p).page

/-- A reload: the server renders `rendered` again, the local store is the one
the previous page left behind. -/
def reload (rendered : Page) (store : Store) : Page := { rendered with store := store }

/-- Whether the sidebar carries the `collapsed` class (`false` when there is no sidebar). -/
def sidebarCollapsed (p : Page) : Bool :=
  match p.sidebar with
  | some cl => hasClass cl "collapsed"
  | none => false

/-- A sample rendering used to instantiate the theorems below: dark body, an
expanded sidebar with its toggle, a theme toggle with a sun icon, empty store. -/
def samplePage : Page :=
  { body := ["dark-theme"], sidebarToggle := true, sidebar := some ["sidebar"],
    themeToggle := true, themeIcon := some ["fas", "fa-sun"],
    store := { sidebar_collapsed := none, theme := none } }

/-! ## Basic facts about class lists -/

theorem hasClass_classAdd (cl : List String) (c d : String) :
    hasClass (classAdd cl c) d = (hasClass cl d || decide (d = c)) := by
  unfold hasClass classAdd
  by_cases h : c ∈ cl
  · by_cases hd : d = c
    · subst hd; simp [h]
    · simp [h, hd]
  · simp [h]

theorem hasClass_classRemove (cl : List String) (c d : String) :
    hasClass (classRemove cl c) d = (hasClass cl d && decide (d ≠ c)) := by
  unfold hasClass classRemove
  simp [List.mem_filter]

theorem hasClass_classAdd_self (cl : List String) (c : String) :
    hasClass (classAdd cl c) c = true := by
  simp [hasClass_classAdd]

theorem hasClass_classRemove_self (cl : List String) (c : String) :
    hasClass (classRemove cl c) c = false := by
  simp [hasClass_classRemove]

theorem hasClass_classToggle_self (cl : List String) (c : String) :
    hasClass (classToggle cl c) c = !hasClass cl c := by
  unfold classToggle
  by_cases h : c ∈ cl
  · rw [if_pos h, hasClass_classRemove_self]; simp [hasClass, h]
  · rw [if_neg h, hasClass_classAdd_self]; simp [hasClass, h]

theorem hasClass_classToggle_other (cl : List String) (c d : String) (h : d ≠ c) :
    hasClass (classToggle cl c) d = hasClass cl d := by
  unfold classToggle
  by_cases hc : c ∈ cl
  · simp [hc, hasClass_classRemove, h]
  · simp [hc, hasClass_classAdd, h]

/-! ## Active-link highlighter -/

theorem highlightLink_href (P : String) (l : NavLink) : (highlightLink P l).href = l.href := by
  unfold highlightLink
  split <;> rfl

theorem highlightLink_active (P : String) (l : NavLink) :
    hasClass (highlightLink P l).classes "active" = true ↔
      (l.href = some P ∨ hasClass l.classes "active" = true) := by
  unfold highlightLink
  by_cases h : l.href = some P
  · simp [h, hasClass_classAdd]
  · simp [h]

/-- C3, as stated, fails: with current path `/dashboard`, a link to `/upload`
that the server rendered with the `active` class still carries `active` after
the highlighter ran, although its href differs from the current path. -/
theorem highlightActive_keeps_stale_active :
    highlightActive "/dashboard" [{ href := some "/upload", classes := ["nav-link", "active"] }]
        = [{ href := some "/upload", classes := ["nav-link", "active"] }]
      ∧ hasClass ["nav-link", "active"] "active" = true
      ∧ (some "/upload" : Option String) ≠ some "/dashboard" := by
  refine ⟨?_, ?_, ?_⟩
  · simp [highlightActive, highlightLink]
  · simp [hasClass]
  · simp

/-- C3 (amended): after the highlighter ran, the link at each position keeps
its href and carries `active` exactly when its href equals the current path as
an exact string or it already carried `active` before; the highlighter adds
the class and never removes it. -/
theorem highlightActive_active_iff (P : String) (navLinks : List NavLink) (i : Nat)
    (l : NavLink) (h : navLinks[i]? = some l) :
    ∃ l1, (highlightActive P navLinks)[i]? = some l1 ∧ l1.href = l.href ∧
      (hasClass l1.classes "active" = true ↔
        (l.href = some P ∨ hasClass l.classes "active" = true)) := by
  refine ⟨highlightLink P l, ?_, highlightLink_href P l, highlightLink_active P l⟩
  simp [highlightActive, List.getElem?_map, h]

/-- Instance of `highlightActive_active_iff`: path `/upload`, second link of three. -/
theorem highlightActive_active_iff_witness :
    ∃ l1, (highlightActive "/upload"
        [{ href := some "/", classes := ["nav-link"] },
         { href := some "/upload", classes := ["nav-link"] },
         { href := some "/upload/history", classes := ["nav-link"] }])[1]? = some l1 ∧
      l1.href = some "/upload" ∧
      (hasClass l1.classes "active" = true ↔
        ((some "/upload" : Option String) = some "/upload" ∨
          hasClass ["nav-link"] "active" = true)) :=
  highlightActive_active_iff "/upload"
    [{ href := some "/", classes := ["nav-link"] },
     { href := some "/upload", classes := ["nav-link"] },
     { href := some "/upload/history", classes := ["nav-link"] }]
    1 { href := some "/upload", classes := ["nav-link"] } rfl

/-! ## Password visibility toggle -/

theorem togglePasswordClicks_both (n : Nat) :
    ∀ html : String,
      togglePasswordClicks n { inputType := some "password", buttonHTML := html } =
        Except.ok (if n % 2 = 1 then { inputType := some "text", buttonHTML := eyeSlashIcon }
          else if n = 0 then { inputType := some "password", buttonHTML := html }
          else { inputType := some "password", buttonHTML := eyeIcon })
      ∧ togglePasswordClicks n { inputType := some "text", buttonHTML := html } =
        Except.ok (if n % 2 = 1 then { inputType := some "password", buttonHTML := eyeIcon }
          else if n = 0 then { inputType := some "text", buttonHTML := html }
          else { inputType := some "text", buttonHTML := eyeSlashIcon }) := by
  induction n with
  | zero => intro html; simp [togglePasswordClicks]
  | succ k ih =>
    intro html
    have h1 := (ih eyeSlashIcon).2
    have h2 := (ih eyeIcon).1
    constructor
    · have hstep : togglePasswordClicks (k + 1) { inputType := some "password", buttonHTML := html }
          = togglePasswordClicks k { inputType := some "text", buttonHTML := eyeSlashIcon } := by
        simp [togglePasswordClicks, togglePasswordClick]
      rw [hstep, h1]
      rcases Nat.mod_two_eq_zero_or_one k with hk | hk
      · have : (k + 1) % 2 = 1 := by omega
        by_cases h0 : k = 0
        · simp [h0]
        · simp [hk, this, h0]
      · have : (k + 1) % 2 = 0 := by omega
        simp [hk, this]
    · have hstep : togglePasswordClicks (k + 1) { inputType := some "text", buttonHTML := html }
          = togglePasswordClicks k { inputType := some "password", buttonHTML := eyeIcon } := by
        simp [togglePasswordClicks, togglePasswordClick]
      rw [hstep, h2]
      rcases Nat.mod_two_eq_zero_or_one k with hk | hk
      · have : (k + 1) % 2 = 1 := by omega
        by_cases h0 : k = 0
        · simp [h0]
        · simp [hk, this, h0]
      · have : (k + 1) % 2 = 0 := by omega
        simp [hk, this]

/-- C4, as stated, fails: a button rendered with the content `Show` does not
get that content back after two clicks; the input is masked again but the
button holds the fixed eye markup. -/
theorem togglePassword_two_clicks_replace_content :
    togglePasswordClicks 2 { inputType := some "password", buttonHTML := "Show" }
        = Except.ok { inputType := some "password", buttonHTML := eyeIcon }
      ∧ eyeIcon ≠ "Show" := by
  refine ⟨?_, ?_⟩
  · simp [togglePasswordClicks, togglePasswordClick]
  · simp [eyeIcon]

/-- C4 (amended): starting from a masked input, `n` clicks always complete;
after an odd number the input has type `text` and the button holds the
eye-slash markup; after an even number the input has type `password` again and
the button holds its original content when `n = 0` and the fixed eye markup
otherwise. -/
theorem togglePasswordClicks_masked (n : Nat) (html : String) :
    togglePasswordClicks n { inputType := some "password", buttonHTML := html } =
      Except.ok (if n % 2 = 1 then { inputType := some "text", buttonHTML := eyeSlashIcon }
        else if n = 0 then { inputType := some "password", buttonHTML := html }
        else { inputType := some "password", buttonHTML := eyeIcon }) :=
  (togglePasswordClicks_both n html).1

/-! ## Confirmation guard -/

/-- C5: in both scripts a click on a `[data-confirm]` element shows exactly one
confirmation prompt; `preventDefault` is called if and only if the user
declines it, and when the user accepts no call is made on the event at all. -/
theorem confirm_click_prevents_iff_declined (dataConfirm : Option String)
    (answer : String → Bool) :
    (∃ m, (customConfirmClick dataConfirm answer).prompts = [m] ∧
        (EventCall.preventDefault ∈ (customConfirmClick dataConfirm answer).calls ↔
          answer m = false) ∧
        (customConfirmClick dataConfirm answer).calls =
          (if answer m then [] else [EventCall.preventDefault])) ∧
    (∃ m, (mainConfirmClick dataConfirm answer).prompts = [m] ∧
        (EventCall.preventDefault ∈ (mainConfirmClick dataConfirm answer).calls ↔
          answer m = false) ∧
        (mainConfirmClick dataConfirm answer).calls =
          (if answer m then [] else [EventCall.preventDefault])) := by
  constructor
  · refine ⟨(match dataConfirm with | some m => m | none => "null"), ?_⟩
    unfold customConfirmClick
    cases h : answer (match dataConfirm with | some m => m | none => "null") <;> simp [h]
  · refine ⟨(match dataConfirm with
      | some m => if m = "" then "Are you sure you want to proceed?" else m
      | none => "Are you sure you want to proceed?"), ?_⟩
    unfold mainConfirmClick
    cases h : answer (match dataConfirm with
      | some m => if m = "" then "Are you sure you want to proceed?" else m
      | none => "Are you sure you want to proceed?") <;> simp [h]

/-! ## Form validation -/

/-- C6: in both scripts the submit listener calls `preventDefault` and
`stopPropagation` if and only if `checkValidity()` reported the form invalid,
and the form carries `was-validated` afterwards in either case. -/
theorem form_submit_cancelled_iff_invalid (valid : Bool) (classes : List String) :
    ((EventCall.preventDefault ∈ (customFormSubmit valid classes).calls ↔ valid = false) ∧
      (EventCall.stopPropagation ∈ (customFormSubmit valid classes).calls ↔ valid = false) ∧
      hasClass (customFormSubmit valid classes).classes "was-validated" = true) ∧
    ((EventCall.preventDefault ∈ (mainFormSubmit valid classes).calls ↔ valid = false) ∧
      (EventCall.stopPropagation ∈ (mainFormSubmit valid classes).calls ↔ valid = false) ∧
      hasClass (mainFormSubmit valid classes).classes "was-validated" = true) := by
  cases valid <;> simp [customFormSubmit, mainFormSubmit, hasClass_classAdd_self]

/-! ## Theme toggle -/

theorem hasClass_fadeIn (cl : List String) (c : String) (h : c ≠ "fade-in") :
    hasClass (fadeIn cl) c = hasClass cl c := by
  unfold fadeIn
  split
  · simp [hasClass_classAdd, h]
  · rfl

theorem themeToggleClick_dark (p : Page) (ic : List String) (hIcon : p.themeIcon = some ic)
    (hd : hasClass p.body "dark-theme" = true) :
    themeToggleClick p =
      { page := { p with body := classAdd (classRemove p.body "dark-theme") "light-theme",
                         store := { p.store with theme := some "light" },
                         themeIcon := some (classAdd (classRemove ic "fa-sun") "fa-moon") },
        error := none } := by
  simp [themeToggleClick, hd, hIcon]

theorem themeToggleClick_not_dark (p : Page) (ic : List String) (hIcon : p.themeIcon = some ic)
    (hd : hasClass p.body "dark-theme" = false) :
    themeToggleClick p =
      { page := { p with body := classAdd (classRemove p.body "light-theme") "dark-theme",
                         store := { p.store with theme := some "dark" },
                         themeIcon := some (classAdd (classRemove ic "fa-moon") "fa-sun") },
        error := none } := by
  simp [themeToggleClick, hd, hIcon]

/-- C7: when the toggle icon exists, a click on the theme toggle completes and
leaves the body with exactly one of `dark-theme` and `light-theme`; the
persisted theme names that class; the icon carries `fa-sun` (and not
`fa-moon`) when the theme is dark and `fa-moon` (and not `fa-sun`) when it is
light; and the next click persists the opposite value. -/
theorem themeToggleClick_consistent (p : Page) (ic : List String)
    (hIcon : p.themeIcon = some ic) :
    (themeToggleClick p).error = none ∧
    hasClass (themeToggleClick p).page.body "dark-theme"
      = !hasClass (themeToggleClick p).page.body "light-theme" ∧
    (themeToggleClick p).page.store.theme
      = some (if hasClass (themeToggleClick p).page.body "dark-theme" then "dark" else "light") ∧
    (∃ ic1, (themeToggleClick p).page.themeIcon = some ic1 ∧
      hasClass ic1 "fa-sun" = hasClass (themeToggleClick p).page.body "dark-theme" ∧
      hasClass ic1 "fa-moon" = hasClass (themeToggleClick p).page.body "light-theme") ∧
    (themeToggleClick (themeToggleClick p).page).page.store.theme
      = some (if hasClass (themeToggleClick p).page.body "dark-theme" then "light" else "dark") := by
  cases hd : hasClass p.body "dark-theme"
  · rw [themeToggleClick_not_dark p ic hIcon hd]
    rw [themeToggleClick_dark _ _ rfl (by simp [hasClass_classAdd])]
    simp [hasClass_classAdd, hasClass_classRemove]
  · rw [themeToggleClick_dark p ic hIcon hd]
    rw [themeToggleClick_not_dark _ _ rfl (by simp [hasClass_classAdd, hasClass_classRemove])]
    simp [hasClass_classAdd, hasClass_classRemove]

/-- Instance of `themeToggleClick_consistent` at `samplePage`, rendered with the dark theme. -/
theorem themeToggleClick_consistent_witness :
    samplePage.themeIcon = some ["fas", "fa-sun"] ∧
    (themeToggleClick samplePage).error = none ∧
    hasClass (themeToggleClick samplePage).page.body "dark-theme"
      = !hasClass (themeToggleClick samplePage).page.body "light-theme" ∧
    (themeToggleClick samplePage).page.store.theme
      = some (if hasClass (themeToggleClick samplePage).page.body "dark-theme"
          then "dark" else "light") ∧
    (∃ ic1, (themeToggleClick samplePage).page.themeIcon = some ic1 ∧
      hasClass ic1 "fa-sun" = hasClass (themeToggleClick samplePage).page.body "dark-theme" ∧
      hasClass ic1 "fa-moon" = hasClass (themeToggleClick samplePage).page.body "light-theme") ∧
    (themeToggleClick (themeToggleClick samplePage).page).page.store.theme
      = some (if hasClass (themeToggleClick samplePage).page.body "dark-theme"
          then "light" else "dark") :=
  ⟨rfl, themeToggleClick_consistent samplePage ["fas", "fa-sun"] rfl⟩

/-! ## Theme restore on load -/

theorem mainSidebarRestore_frame (p : Page) :
    (mainSidebarRestore p).page.body = p.body ∧
    (mainSidebarRestore p).page.themeIcon = p.themeIcon ∧
    (mainSidebarRestore p).page.themeToggle = p.themeToggle ∧
    (mainSidebarRestore p).page.sidebarToggle = p.sidebarToggle ∧
    (mainSidebarRestore p).page.store = p.store ∧
    (mainSidebarRestore p).page.themeToggleDisabled = p.themeToggleDisabled := by
  unfold mainSidebarRestore
  split
  · split
    · cases p.sidebar <;> simp
    · simp
  · simp

theorem mainSidebarRestore_ok (p : Page)
    (h : p.sidebarToggle = true → p.store.sidebar_collapsed = some "true" →
      p.sidebar.isSome = true) :
    (mainSidebarRestore p).error = none := by
  unfold mainSidebarRestore
  split
  · rename_i ht
    split
    · rename_i hs
      cases hsb : p.sidebar
      · have := h ht hs
        simp [hsb] at this
      · simp
    · simp
  · simp

theorem mainLoad_eq_themeRestore (p : Page)
    (h : p.sidebarToggle = true → p.store.sidebar_collapsed = some "true" →
      p.sidebar.isSome = true) :
    mainLoad p = mainThemeRestore (mainSidebarRestore (fadeInCards p)).page := by
  have hok : (mainSidebarRestore (fadeInCards p)).error = none := by
    apply mainSidebarRestore_ok
    intro ht hs
    have := h ht hs
    cases hsb : p.sidebar
    · simp [hsb] at this
    · simp [fadeInCards, hsb]
  unfold mainLoad
  simp [hok]

/-- C2 on main.js: a body rendered with `light-theme`, a moon icon and
persisted theme `light`. The load routine clicks the toggle (line 88, commented
as switching to the light theme); the listener finds no `dark-theme` class, so
it switches the body to `dark-theme`, the icon to `fa-sun`, and persists
`dark`, where the claim says the page ends in the light state with `light`
still persisted. -/
theorem mainLoad_light_not_restored :
    mainLoad { body := ["light-theme"], sidebarToggle := false, sidebar := none,
               themeToggle := true, themeIcon := some ["fas", "fa-moon"],
               store := { sidebar_collapsed := none, theme := some "light" } }
      = { page := { body := ["dark-theme"], sidebarToggle := false, sidebar := none,
                    themeToggle := true, themeIcon := some ["fas", "fa-sun"],
                    store := { sidebar_collapsed := none, theme := some "dark" } },
          error := none } := by
  decide

/-- The same routine on a body rendered with `dark-theme`: when the theme
toggle is enabled and has its icon, the persisted theme is `light`, and the
sidebar restore does not fail, the load routine ends in the light state. -/
theorem mainLoad_light_from_dark (p : Page) (ic : List String)
    (hToggle : p.themeToggle = true) (hEnabled : p.themeToggleDisabled = false)
    (hIcon : p.themeIcon = some ic)
    (hSidebar : p.sidebarToggle = true → p.store.sidebar_collapsed = some "true" →
      p.sidebar.isSome = true)
    (hLight : p.store.theme = some "light") (hDark : hasClass p.body "dark-theme" = true) :
    (mainLoad p).error = none ∧
    hasClass (mainLoad p).page.body "light-theme" = true ∧
    hasClass (mainLoad p).page.body "dark-theme" = false ∧
    (∃ ic1, (mainLoad p).page.themeIcon = some ic1 ∧
      hasClass ic1 "fa-moon" = true ∧ hasClass ic1 "fa-sun" = false) ∧
    (mainLoad p).page.store.theme = some "light" := by
  obtain ⟨hb, hi, ht, _, hs, hdis⟩ := mainSidebarRestore_frame (fadeInCards p)
  have hb1 : (mainSidebarRestore (fadeInCards p)).page.body = fadeIn p.body := by
    rw [hb]; rfl
  have hi1 : (mainSidebarRestore (fadeInCards p)).page.themeIcon = some (fadeIn ic) := by
    rw [hi]; simp [fadeInCards, hIcon]
  have ht1 : (mainSidebarRestore (fadeInCards p)).page.themeToggle = true := by
    rw [ht]; simpa [fadeInCards] using hToggle
  have hs1 : (mainSidebarRestore (fadeInCards p)).page.store = p.store := by
    rw [hs]; rfl
  have hdis1 : (mainSidebarRestore (fadeInCards p)).page.themeToggleDisabled = false := by
    rw [hdis]; simpa [fadeInCards] using hEnabled
  rw [mainLoad_eq_themeRestore p hSidebar]
  have hd : hasClass (mainSidebarRestore (fadeInCards p)).page.body "dark-theme" = true := by
    rw [hb1, hasClass_fadeIn _ _ (by decide)]; exact hDark
  unfold mainThemeRestore
  rw [if_pos ht1, if_pos (by rw [hs1]; exact hLight), hdis1,
    themeToggleClick_dark _ _ hi1 hd]
  simp [hasClass_classAdd, hasClass_classRemove]

/-! ## Sidebar persistence -/

theorem jsBoolString_eq_true (b : Bool) : decide (jsBoolString b = "true") = b := by
  cases b <;> simp [jsBoolString]

theorem themeToggleClick_sidebar (p : Page) :
    (themeToggleClick p).page.sidebar = p.sidebar ∧
    (themeToggleClick p).page.store.sidebar_collapsed = p.store.sidebar_collapsed := by
  unfold themeToggleClick
  split <;> cases p.themeIcon <;> simp

theorem mainThemeRestore_sidebar (p : Page) :
    (mainThemeRestore p).page.sidebar = p.sidebar ∧
    (mainThemeRestore p).page.store.sidebar_collapsed = p.store.sidebar_collapsed := by
  unfold mainThemeRestore
  split
  · split
    · split
      · simp
      · exact themeToggleClick_sidebar p
    · simp
  · simp

theorem mainLoad_sidebar (p : Page) (cl : List String)
    (hToggle : p.sidebarToggle = true) (hSidebar : p.sidebar = some cl) :
    (mainLoad p).page.sidebar
      = some (if p.store.sidebar_collapsed = some "true"
          then classAdd (fadeIn cl) "collapsed" else fadeIn cl) ∧
    (mainLoad p).page.store.sidebar_collapsed = p.store.sidebar_collapsed := by
  rw [mainLoad_eq_themeRestore p (by intro _ _; simp [hSidebar])]
  obtain ⟨h1, h2⟩ := mainThemeRestore_sidebar (mainSidebarRestore (fadeInCards p)).page
  rw [h1, h2]
  unfold mainSidebarRestore
  by_cases hs : p.store.sidebar_collapsed = some "true"
  · simp [fadeInCards, hToggle, hSidebar, hs]
  · simp [fadeInCards, hToggle, hSidebar, hs]

theorem mainLoad_sidebarCollapsed (p : Page) (cl : List String)
    (hToggle : p.sidebarToggle = true) (hSidebar : p.sidebar = some cl)
    (hRendered : hasClass cl "collapsed" = false) :
    sidebarCollapsed (mainLoad p).page = decide (p.store.sidebar_collapsed = some "true") ∧
    (mainLoad p).page.store.sidebar_collapsed = p.store.sidebar_collapsed := by
  obtain ⟨h1, h2⟩ := mainLoad_sidebar p cl hToggle hSidebar
  refine ⟨?_, h2⟩
  unfold sidebarCollapsed
  rw [h1]
  by_cases hs : p.store.sidebar_collapsed = some "true"
  · simp [hs, hasClass_classAdd]
  · simp only [if_neg hs]
    rw [hasClass_fadeIn _ _ (by decide), hRendered]
    simp [hs]

theorem sidebarToggleClick_synced (q : Page) (cq : List String) (hq : q.sidebar = some cq) :
    (sidebarToggleClick q).error = none ∧
    (sidebarToggleClick q).page.sidebar = some (classToggle cq "collapsed") ∧
    (sidebarToggleClick q).page.store.sidebar_collapsed
      = some (jsBoolString (hasClass (classToggle cq "collapsed") "collapsed")) := by
  simp [sidebarToggleClick, hq]

theorem sidebarClicks_synced (n : Nat) :
    ∀ p : Page, (∃ c, p.sidebar = some c) →
      sidebarCollapsed p = decide (p.store.sidebar_collapsed = some "true") →
      sidebarCollapsed (sidebarClicks n p)
        = decide ((sidebarClicks n p).store.sidebar_collapsed = some "true") := by
  induction n with
  | zero => intro p _ h; simpa [sidebarClicks] using h
  | succ k ih =>
    intro p hc _
    obtain ⟨c, hc⟩ := hc
    obtain ⟨_, h2, h3⟩ := sidebarToggleClick_synced p c hc
    show sidebarCollapsed (sidebarClicks k (sidebarToggleClick p).page) = _
    apply ih _ ⟨_, h2⟩
    unfold sidebarCollapsed
    rw [h2, h3]
    simp only [Option.some.injEq]
    exact (jsBoolString_eq_true _).symm

/-- C8, as stated, fails: when the server renders the sidebar with the
`collapsed` class, one click expands it and persists `false`; after a reload
the load routine leaves the rendered class in place, so the sidebar is
collapsed although it was expanded just before the reload. -/
theorem sidebar_reload_loses_expanded :
    sidebarCollapsed (sidebarClicks 1 (mainLoad
        { body := [], sidebarToggle := true, sidebar := some ["sidebar", "collapsed"],
          themeToggle := false, themeIcon := none,
          store := { sidebar_collapsed := none, theme := none } }).page) = false
    ∧ (sidebarClicks 1 (mainLoad
        { body := [], sidebarToggle := true, sidebar := some ["sidebar", "collapsed"],
          themeToggle := false, themeIcon := none,
          store := { sidebar_collapsed := none, theme := none } }).page).store.sidebar_collapsed
        = some "false"
    ∧ sidebarCollapsed (mainLoad (reload
        { body := [], sidebarToggle := true, sidebar := some ["sidebar", "collapsed"],
          themeToggle := false, themeIcon := none,
          store := { sidebar_collapsed := none, theme := none } }
        { sidebar_collapsed := some "false", theme := none })).page = true := by
  refine ⟨?_, ?_, ?_⟩ <;> decide

/-- C8 (amended): a click on the sidebar toggle of a page that has a sidebar
completes, flips the `collapsed` class and persists `true` if the sidebar is
then collapsed and `false` otherwise; and when the server renders the sidebar
(with its toggle) without the `collapsed` class, then after page load and any
number `n` of toggle clicks, reloading with the same store and running the
load routine yields the collapsed state the sidebar had just before the reload. -/
theorem sidebar_round_trip (r : Page) (cl : List String) (n : Nat) (q : Page)
    (cq : List String) (hToggle : r.sidebarToggle = true) (hSidebar : r.sidebar = some cl)
    (hRendered : hasClass cl "collapsed" = false) (hq : q.sidebar = some cq) :
    (sidebarToggleClick q).error = none ∧
    sidebarCollapsed (sidebarToggleClick q).page = !sidebarCollapsed q ∧
    (sidebarToggleClick q).page.store.sidebar_collapsed
      = some (if sidebarCollapsed (sidebarToggleClick q).page then "true" else "false") ∧
    sidebarCollapsed (mainLoad (reload r (sidebarClicks n (mainLoad r).page).store)).page
      = sidebarCollapsed (sidebarClicks n (mainLoad r).page) := by
  obtain ⟨e1, e2, e3⟩ := sidebarToggleClick_synced q cq hq
  refine ⟨e1, ?_, ?_, ?_⟩
  · unfold sidebarCollapsed
    rw [e2, hq]
    exact hasClass_classToggle_self cq "collapsed"
  · unfold sidebarCollapsed
    rw [e2, e3]
    rfl
  · obtain ⟨l1, _⟩ := mainLoad_sidebarCollapsed r cl hToggle hSidebar hRendered
    obtain ⟨s1, s2⟩ := mainLoad_sidebar r cl hToggle hSidebar
    have hsync := sidebarClicks_synced n (mainLoad r).page ⟨_, s1⟩ (by rw [l1, s2])
    rw [hsync]
    exact (mainLoad_sidebarCollapsed (reload r (sidebarClicks n (mainLoad r).page).store) cl
      hToggle hSidebar hRendered).1

/-- Instance of `sidebar_round_trip`: `samplePage`, three clicks after load,
and a single click on `samplePage` itself. -/
theorem sidebar_round_trip_witness :
    (sidebarToggleClick samplePage).error = none ∧
    sidebarCollapsed (sidebarToggleClick samplePage).page = !sidebarCollapsed samplePage ∧
    (sidebarToggleClick samplePage).page.store.sidebar_collapsed
      = some (if sidebarCollapsed (sidebarToggleClick samplePage).page
          then "true" else "false") ∧
    sidebarCollapsed
        (mainLoad (reload samplePage (sidebarClicks 3 (mainLoad samplePage).page).store)).page
      = sidebarCollapsed (sidebarClicks 3 (mainLoad samplePage).page) :=
  sidebar_round_trip samplePage ["sidebar"] 3 samplePage ["sidebar"] rfl rfl (by decide) rfl

/-! ## Alert auto-dismiss -/

theorem customAlertTimer_closed (doc : List Element) (i : Nat) (e : Element)
    (h : doc[i]? = some e) :
    ∃ e1, (customAlertTimer doc)[i]? = some e1 ∧ e1.ident = e.ident ∧
      e1.classes = e.classes ∧ e1.closed = (e.closed || isDismissibleAlert e) := by
  refine ⟨if isDismissibleAlert e then closeAlert e else e, ?_, ?_, ?_, ?_⟩
  · simp [customAlertTimer, List.getElem?_map, h]
  · split <;> rfl
  · split <;> rfl
  · cases hd : isDismissibleAlert e <;> simp [closeAlert]

/-- C1 on main.js: a document holding one alert marked `alert-permanent` has
that alert closed when the main.js timer fires, while the custom.js timer
leaves it open. -/
theorem mainAlertRun_closes_permanent :
    mainAlertRun [{ ident := 0, classes := ["alert", "alert-permanent"], closed := false }]
      = [{ ident := 0, classes := ["alert", "alert-permanent"], closed := true }]
    ∧ customAlertTimer [{ ident := 0, classes := ["alert", "alert-permanent"], closed := false }]
      = [{ ident := 0, classes := ["alert", "alert-permanent"], closed := false }] := by
  constructor <;> decide

/-! ## File input labeler -/

theorem mainFileChange_spec (files : List String) (sibling : Option Sibling) :
    mainFileChange files sibling =
      sibling.map (fun label =>
        if hasClass label.classes "custom-file-label" then
          { label with content :=
              (match files.head? with
                | some name => if name = "" then "No file chosen" else name
                | none => "No file chosen") }
        else label) := by
  unfold mainFileChange
  cases sibling with
  | none => rfl
  | some label => simp only [Option.map]; split <;> rfl

/-- C9 on custom.js: with no file selected the listener raises a `TypeError`
instead of writing the placeholder (main.js writes `No file chosen`), and a
sibling without the `custom-file-label` class is overwritten with the file name. -/
theorem customFileChange_unguarded :
    customFileChange [] (some { classes := ["custom-file-label"], content := "Choose file" })
      = Except.error (JsError.typeError "e.target.files[0] is undefined")
    ∧ mainFileChange [] (some { classes := ["custom-file-label"], content := "Choose file" })
      = some { classes := ["custom-file-label"], content := "No file chosen" }
    ∧ customFileChange ["data.csv"] (some { classes := ["form-text"], content := "Max 16 MB" })
      = Except.ok (some { classes := ["form-text"], content := "data.csv" })
    ∧ mainFileChange ["data.csv"] (some { classes := ["form-text"], content := "Max 16 MB" })
      = some { classes := ["form-text"], content := "Max 16 MB" } := by
  refine ⟨?_, ?_, ?_, ?_⟩ <;> rfl

/-! ## Missing optional elements -/

/-- C10: the unguarded dereferences. A password-toggle click whose target is
missing raises; a sidebar-toggle click without `#sidebar` raises; the load
routine with `sidebar_collapsed` = `true` and no `#sidebar` raises before the
theme block, so the persisted light theme is not restored; a theme-toggle
click without an icon raises after the body class and the store were changed. -/
theorem missing_element_raises :
    togglePasswordClick { inputType := none, buttonHTML := "Show" }
      = Except.error (JsError.typeError "input is null")
    ∧ (sidebarToggleClick { samplePage with sidebar := none }).error
      = some (JsError.typeError "sidebar is null")
    ∧ mainLoad { samplePage with sidebar := none,
                                 store := { sidebar_collapsed := some "true",
                                            theme := some "light" } }
      = { page := { samplePage with sidebar := none,
                                    store := { sidebar_collapsed := some "true",
                                               theme := some "light" } },
          error := some (JsError.typeError "getElementById('sidebar') is null") }
    ∧ themeToggleClick { samplePage with themeIcon := none }
      = { page := { samplePage with themeIcon := none, body := ["light-theme"],
                                    store := { sidebar_collapsed := none,
                                               theme := some "light" } },
          error := some (JsError.typeError "icon is null") } := by
  refine ⟨?_, ?_, ?_, ?_⟩ <;> rfl

end EnergyAnomalyDetector
